import Mathlib

/-!
Verification of the scheduled-query-rules-log resource of the azurerm provider
(`resource_arm_monitor_scheduled_query_rules_log.go`), shallowly embedded:

* Go pointer types (`*string`, `*[]T`, `*int32`) become `Option`;
* SDK string enums (`insights.Enabled`, `insights.ProvisioningState`,
  `insights.QueryType`) are plain `String`s, the empty string standing for the
  JSON-absent zero value;
* Terraform state writes (`d.Set`) become updates of a record of `Option`
  fields, `none` meaning "never set"; setting a nil pointer records the Go
  zero value, as the plugin SDK does;
* a nil-pointer dereference (a Go panic) is modelled by `Option`-valued
  results, `none` standing for the fault;
* the network client is an explicit environment: each handler takes the
  results of its SDK calls as arguments and returns its outcome together
  with the ordered list of calls it issued.
-/

/-- `insights.Dimension`: every field is a pointer in the SDK. -/
structure Dimension where
  Name : Option String := none
  Operator : Option String := none
  Values : Option (List String) := none
deriving DecidableEq, Repr

/-- `insights.Criteria`: metric name plus dimension list, both pointers. -/
structure Criteria where
  MetricName : Option String := none
  Dimensions : Option (List Dimension) := none
deriving DecidableEq, Repr

/-- The OData discriminator tags of the `insights.BasicAction` variants. -/
inductive OdataTypeBasicAction where
  | logToMetricAction
  | alertingAction
  | action
deriving DecidableEq, Repr

/-- `insights.LogToMetricAction`. -/
structure LogToMetricAction where
  Criteria : Option (List Criteria) := none
  OdataType : OdataTypeBasicAction := .logToMetricAction
deriving DecidableEq, Repr

/-- `insights.BasicAction`: the interface value held in `LogSearchRule.Action`.
Only the log-to-metric variant carries data the resource reads. -/
inductive BasicAction where
  | logToMetric (a : LogToMetricAction)
  | alerting
  | base
deriving DecidableEq, Repr

/-- `insights.Source`: `QueryType` is a non-pointer string enum. -/
structure Source where
  AuthorizedResources : Option (List String) := none
  DataSourceID : Option String := none
  Query : Option String := none
  QueryType : String := ""
deriving DecidableEq, Repr

/-- `insights.Schedule` (`*int32` fields). -/
structure Schedule where
  FrequencyInMinutes : Option Int := none
  TimeWindowInMinutes : Option Int := none
deriving DecidableEq, Repr

/-- `date.Time`, identified with its RFC3339 rendering: the handler only ever
calls `Format(time.RFC3339)` on it. -/
structure DateTime where
  rfc3339 : String
deriving DecidableEq, Repr

/-- `insights.LogSearchRuleResource` with the embedded `*LogSearchRule`
flattened in, as Go field promotion presents it. `Enabled` and
`ProvisioningState` are non-pointer string enums. -/
structure LogSearchRuleResource where
  ID : Option String := none
  Location : Option String := none
  Tags : List (String × String) := []
  Description : Option String := none
  Enabled : String := ""
  Source : Option Source := none
  Schedule : Option Schedule := none
  Action : BasicAction := .base
  ProvisioningState : String := ""
  LastUpdatedTime : Option DateTime := none
deriving DecidableEq, Repr

/-- `insights.True` of the tri-state `insights.Enabled` string enum. -/
def insightsTrue : String := "true"

/-- One `dimension` block of the Terraform configuration: `name`, `operator`
and `values` are all `Required` in the schema, hence plain fields. -/
structure DimensionCfg where
  name : String
  operator : String
  values : List String
deriving DecidableEq, Repr

/-- One `criteria` block of the configuration: `metric_name` and `dimension`
are `Required`. -/
structure CriterionCfg where
  metric_name : String
  dimension : List DimensionCfg
deriving DecidableEq, Repr

/-- `expandMonitorScheduledQueryRulesLogCriteria`: builds an
`insights.Criteria` per configuration block, wrapping every field in a
freshly allocated pointer (`utils.String`, `&dimensions`). -/
def expandMonitorScheduledQueryRulesLogCriteria
    (input : List CriterionCfg) : List Criteria :=
  input.map fun v =>
    { MetricName := some v.metric_name
      Dimensions := some (v.dimension.map fun dVal =>
        { Name := some dVal.name
          Operator := some dVal.operator
          Values := some dVal.values }) }

/-- `expandMonitorScheduledQueryRulesLogToMetricAction`: fixed
log-to-metric OData discriminator around the expanded criteria. -/
def expandMonitorScheduledQueryRulesLogToMetricAction
    (criteriaRaw : List CriterionCfg) : LogToMetricAction :=
  { Criteria := some (expandMonitorScheduledQueryRulesLogCriteria criteriaRaw)
    OdataType := .logToMetricAction }

/-- One entry of the flattened `dimension` collection: the Go code writes
each map key only when the corresponding pointer is non-nil. -/
structure FlatDimension where
  name : Option String := none
  operator : Option String := none
  values : Option (List String) := none
deriving DecidableEq, Repr

/-- One entry of the flattened `criteria` collection: `metric_name` is
written unconditionally (the Go code dereferences the pointer). -/
structure FlatCriterion where
  dimension : List FlatDimension
  metric_name : String
deriving DecidableEq, Repr

/-- `flattenAzureRmScheduledQueryRulesLogDimension`: nil input yields the
empty collection; each present field is copied, absent fields are omitted. -/
def flattenAzureRmScheduledQueryRulesLogDimension
    (input : Option (List Dimension)) : List FlatDimension :=
  match input with
  | none => []
  | some l => l.map fun dimension =>
      { name := dimension.Name
        operator := dimension.Operator
        values := dimension.Values }

/-- The loop body of `flattenAzureRmScheduledQueryRulesLogCriteria`. The Go
code dereferences `*criteria.MetricName` without a nil check, so a nil
metric name is a panic, modelled as `none`. -/
def flattenLogCriteriaList : List Criteria → Option (List FlatCriterion)
  | [] => some []
  | criteria :: rest =>
    match criteria.MetricName with
    | none => none
    | some m =>
      match flattenLogCriteriaList rest with
      | none => none
      | some tail =>
        some ({ dimension :=
                  flattenAzureRmScheduledQueryRulesLogDimension criteria.Dimensions
                metric_name := m } :: tail)

/-- `flattenAzureRmScheduledQueryRulesLogCriteria`: nil input yields the
empty collection, otherwise the loop over the dereferenced slice. -/
def flattenAzureRmScheduledQueryRulesLogCriteria
    (input : Option (List Criteria)) : Option (List FlatCriterion) :=
  match input with
  | none => some []
  | some l => flattenLogCriteriaList l

/-- `azure.NormalizeLocation`: lower-case the location and strip its spaces
(`strings.Replace(strings.ToLower(location), " ", "", -1)`), written
character-wise. -/
def normalizeLocation (input : String) : String :=
  String.mk ((input.data.map Char.toLower).filter fun c => c ≠ ' ')

/-- `validation.IntInSlice`: the returned validator accepts exactly the
listed values. -/
def intInSlice (valid : List Int) (v : Int) : Bool :=
  valid.contains v

/-- The `ValidateFunc` attached to the `severity` schema field:
`validation.IntInSlice([]int{0, 1, 2, 3, 4})`. -/
def severityValidate (v : Int) : Bool :=
  intInSlice [0, 1, 2, 3, 4] v

/-- The `ValidateFunc` attached to `criteria.dimension.operator`:
`validation.StringInSlice([]string{"Include"}, false)`. -/
def dimensionOperatorValidate (s : String) : Bool :=
  s == "Include"

/-- Schema validation of a `criteria` collection: the only validator inside
the `criteria` block is the dimension-`operator` one. -/
def criteriaSchemaValid (c : List CriterionCfg) : Bool :=
  c.all fun cr => cr.dimension.all fun d => dimensionOperatorValidate d.operator

/-- The Terraform state record written by `d.Set`/`d.SetId`: `none` means the
key was never set. -/
structure TFState where
  name : Option String := none
  resource_group_name : Option String := none
  location : Option String := none
  last_updated_time : Option String := none
  provisioning_state : Option String := none
  enabled : Option Bool := none
  description : Option String := none
  criteria : Option (List FlatCriterion) := none
  frequency : Option Int := none
  time_window : Option Int := none
  authorized_resources : Option (List String) := none
  data_source_id : Option String := none
  query : Option String := none
  query_type : Option String := none
  tagsState : Option (List (String × String)) := none
deriving DecidableEq, Repr

/-- Result of a `client.Get` round trip: success, a 404 the helper
`utils.ResponseWasNotFound` recognises, or any other error. -/
inductive GetResult where
  | ok (resp : LogSearchRuleResource)
  | notFound (e : String)
  | failed (e : String)
deriving DecidableEq, Repr

/-- Result of a `client.Delete` round trip. -/
inductive DeleteCallResult where
  | ok
  | errNotFound (e : String)
  | errOther (e : String)
deriving DecidableEq, Repr

/-- The `fmt.Errorf`/helper error values the handlers can return, kept
structured so the identity context they carry is visible. -/
inductive Err where
  | checkingExisting (name resourceGroup e : String)
  | importAsExists (resourceType id : String)
  | creatingRule (name resourceGroup e : String)
  | rawError (e : String)
  | idEmpty (name resourceGroup : String)
  | gettingRule (name resourceGroup e : String)
  | unknownActionType (name resourceGroup typeName : String)
  | deletingRule (name resourceGroup e : String)
deriving DecidableEq, Repr

/-- What Go's `%T` prints for each `BasicAction` variant. -/
def actionTypeName : BasicAction → String
  | .logToMetric _ => "insights.LogToMetricAction"
  | .alerting => "insights.AlertingAction"
  | .base => "insights.Action"

/-- Lines 328-344 of the Read handler: the unconditional and
presence-guarded `d.Set` calls before the action switch. `d.Set` with a nil
`*string` records the zero value, hence `Option.getD ""` for
`description`. -/
def setBaseFields (name resourceGroup : String) (resp : LogSearchRuleResource)
    (st : TFState) : TFState :=
  let st := { st with name := some name, resource_group_name := some resourceGroup }
  let st := match resp.Location with
    | some location => { st with location := some (normalizeLocation location) }
    | none => st
  let st := match resp.LastUpdatedTime with
    | some lastUpdated => { st with last_updated_time := some lastUpdated.rfc3339 }
    | none => st
  let st := { st with provisioning_state := some resp.ProvisioningState }
  let st := if resp.Enabled == insightsTrue then { st with enabled := some true }
    else { st with enabled := some false }
  { st with description := some (resp.Description.getD "") }

/-- Lines 355-362 of the Read handler: the `schedule` block. -/
def setScheduleFields (schedule : Option Schedule) (st : TFState) : TFState :=
  match schedule with
  | none => st
  | some schedule =>
    let st := match schedule.FrequencyInMinutes with
      | some f => { st with frequency := some f }
      | none => st
    match schedule.TimeWindowInMinutes with
    | some t => { st with time_window := some t }
    | none => st

/-- Lines 364-375 of the Read handler: the `source` block; `query_type` is
set unconditionally whenever the source is present. -/
def setSourceFields (source : Option Source) (st : TFState) : TFState :=
  match source with
  | none => st
  | some source =>
    let st := match source.AuthorizedResources with
      | some ar => { st with authorized_resources := some ar }
      | none => st
    let st := match source.DataSourceID with
      | some ds => { st with data_source_id := some ds }
      | none => st
    let st := match source.Query with
      | some q => { st with query := some q }
      | none => st
    { st with query_type := some source.QueryType }

/-- Outcome of the Read handler: success carries the stored id (cleared to
`""` on a 404) and the state; `panicked` is the nil-pointer dereference
inside the criteria flattener. -/
inductive ReadOutcome where
  | success (id : String) (st : TFState)
  | failure (e : Err)
  | panicked
deriving DecidableEq, Repr

/-- `resourceArmMonitorScheduledQueryRulesLogRead`, lines 318-377, after the
id has been parsed into `resourceGroup` and `name`; `get` is the result of
`client.Get`. -/
def resourceArmMonitorScheduledQueryRulesLogRead
    (storedId name resourceGroup : String) (st0 : TFState)
    (get : GetResult) : ReadOutcome :=
  match get with
  | .notFound _ => .success "" st0
  | .failed e => .failure (.gettingRule name resourceGroup e)
  | .ok resp =>
    let st := setBaseFields name resourceGroup resp st0
    match resp.Action with
    | .logToMetric action =>
      match flattenAzureRmScheduledQueryRulesLogCriteria action.Criteria with
      | none => .panicked
      | some crit =>
        let st := { st with criteria := some crit }
        let st := setScheduleFields resp.Schedule st
        let st := setSourceFields resp.Source st
        let st := { st with tagsState := some resp.Tags }
        .success storedId st
    | other => .failure (.unknownActionType name resourceGroup (actionTypeName other))

/-- Outcome of the Delete handler. -/
inductive DeleteOutcome where
  | success
  | failure (e : Err)
deriving DecidableEq, Repr

/-- `resourceArmMonitorScheduledQueryRulesLogDelete`, lines 392-398, after id
parsing: a not-found error from `client.Delete` is swallowed, any other
error is wrapped with the rule name and resource group. -/
def resourceArmMonitorScheduledQueryRulesLogDelete
    (name resourceGroup : String) (del : DeleteCallResult) : DeleteOutcome :=
  match del with
  | .ok => .success
  | .errNotFound _ => .success
  | .errOther e => .failure (.deletingRule name resourceGroup e)

/-- The SDK calls the Create/Update handler can issue, in order. -/
inductive ApiCall where
  | getExisting
  | createOrUpdate
  | getAfterCreate
  | readGet
deriving DecidableEq, Repr

/-- Environment of one Create/Update run: the import-protection flag
(`features.ShouldResourcesBeImported()`), `d.IsNewResource()`, and the
responses of the up to three Get calls and the CreateOrUpdate call
(`createResult = some e` is a failing call). -/
structure CreateEnv where
  importProtect : Bool
  isNew : Bool
  getExisting : GetResult
  createResult : Option String
  getAfterCreate : GetResult
  readGet : GetResult
deriving DecidableEq, Repr

/-- Outcome of the Create/Update handler: either an error of its own, or the
outcome of the final Read it delegates to. -/
inductive CreateOutcome where
  | failure (e : Err)
  | readResult (r : ReadOutcome)
deriving DecidableEq, Repr

/-- Lines 290-303 of the Create/Update handler: CreateOrUpdate, the
follow-up Get, `d.SetId`, and the delegated Read. -/
def createUpdateAfterCheck (name resourceGroup : String) (st0 : TFState)
    (env : CreateEnv) (callsBefore : List ApiCall) :
    CreateOutcome × List ApiCall :=
  let calls := callsBefore ++ [ApiCall.createOrUpdate]
  match env.createResult with
  | some e => (.failure (.creatingRule name resourceGroup e), calls)
  | none =>
    let calls := calls ++ [ApiCall.getAfterCreate]
    match env.getAfterCreate with
    | .failed e => (.failure (.rawError e), calls)
    | .notFound e => (.failure (.rawError e), calls)
    | .ok read =>
      match read.ID with
      | none => (.failure (.idEmpty name resourceGroup), calls)
      | some rid =>
        let calls := calls ++ [ApiCall.readGet]
        (.readResult (resourceArmMonitorScheduledQueryRulesLogRead
          rid name resourceGroup st0 env.readGet), calls)

/-- `resourceArmMonitorScheduledQueryRulesLogCreateUpdate`, lines 239-304.
The request payload built from the configuration by the expanders does not
influence the handler's control flow, so the CreateOrUpdate response is
taken from the environment; the handler returns its outcome together with
the ordered list of SDK calls it issued. -/
def resourceArmMonitorScheduledQueryRulesLogCreateUpdate
    (name resourceGroup : String) (st0 : TFState) (env : CreateEnv) :
    CreateOutcome × List ApiCall :=
  if env.importProtect && env.isNew then
    let calls := [ApiCall.getExisting]
    let afterCheck : Option Err :=
      match env.getExisting with
      | .failed e => some (.checkingExisting name resourceGroup e)
      | .notFound _ => none
      | .ok existing =>
        match existing.ID with
        | some i =>
          if i ≠ "" then
            some (.importAsExists "azurerm_monitor_scheduled_query_rules_log" i)
          else none
        | none => none
    match afterCheck with
    | some e => (.failure e, calls)
    | none => createUpdateAfterCheck name resourceGroup st0 env calls
  else
    createUpdateAfterCheck name resourceGroup st0 env []

/-- Spec-side canonical image of a configured dimension among the flattened
entries: every field present. -/
def cfgToFlatDimension (d : DimensionCfg) : FlatDimension :=
  { name := some d.name, operator := some d.operator, values := some d.values }

/-- Spec-side canonical image of a configured criterion among the flattened
entries. -/
def cfgToFlatCriterion (cr : CriterionCfg) : FlatCriterion :=
  { dimension := cr.dimension.map cfgToFlatDimension
    metric_name := cr.metric_name }

/-- Spec-side decoding of a flattened dimension back into a configuration
block; `none` when a field was omitted. -/
def flatDimensionToCfg (d : FlatDimension) : Option DimensionCfg :=
  match d.name, d.operator, d.values with
  | some n, some o, some v => some { name := n, operator := o, values := v }
  | _, _, _ => none

/-- Spec-side decoding of a flattened criterion back into a configuration
block. -/
def flatCriterionToCfg (cr : FlatCriterion) : Option CriterionCfg :=
  match cr.dimension.mapM flatDimensionToCfg with
  | some dims => some { metric_name := cr.metric_name, dimension := dims }
  | none => none

/-- `orSet new old`: the value a state key holds after a presence-guarded
`d.Set`: the new value when present, the previous one otherwise. -/
def orSet {α : Type} (new old : Option α) : Option α :=
  match new with
  | some v => some v
  | none => old

@[simp] theorem orSet_some {α : Type} (v : α) (old : Option α) :
    orSet (some v) old = some v := rfl

@[simp] theorem orSet_none {α : Type} (old : Option α) :
    orSet none old = old := rfl

@[simp] theorem orSet_none_right {α : Type} (new : Option α) :
    orSet new none = new := by cases new <;> rfl

/-- The base `d.Set` block of the Read handler, as one simultaneous record
update. -/
theorem setBaseFields_eq (name resourceGroup : String)
    (resp : LogSearchRuleResource) (st : TFState) :
    setBaseFields name resourceGroup resp st = { st with
      name := some name
      resource_group_name := some resourceGroup
      location := orSet (resp.Location.map normalizeLocation) st.location
      last_updated_time :=
        orSet (resp.LastUpdatedTime.map DateTime.rfc3339) st.last_updated_time
      provisioning_state := some resp.ProvisioningState
      enabled := some (resp.Enabled == insightsTrue)
      description := some (resp.Description.getD "") } := by
  obtain ⟨i, loc, tg, desc, en, src, sched, act, prov, lut⟩ := resp
  cases loc <;> cases lut <;> cases he : en == insightsTrue <;>
    simp [setBaseFields, he, orSet]

/-- The `schedule` block of the Read handler, as one simultaneous record
update. -/
theorem setScheduleFields_eq (schedule : Option Schedule) (st : TFState) :
    setScheduleFields schedule st = { st with
      frequency := orSet (schedule.bind Schedule.FrequencyInMinutes) st.frequency
      time_window :=
        orSet (schedule.bind Schedule.TimeWindowInMinutes) st.time_window } := by
  cases schedule with
  | none => rfl
  | some s => obtain ⟨f, t⟩ := s; cases f <;> cases t <;> rfl

/-- The `source` block of the Read handler, as one simultaneous record
update. -/
theorem setSourceFields_eq (source : Option Source) (st : TFState) :
    setSourceFields source st = { st with
      authorized_resources :=
        orSet (source.bind Source.AuthorizedResources) st.authorized_resources
      data_source_id := orSet (source.bind Source.DataSourceID) st.data_source_id
      query := orSet (source.bind Source.Query) st.query
      query_type := orSet (source.map Source.QueryType) st.query_type } := by
  cases source with
  | none => rfl
  | some s =>
    obtain ⟨ar, ds, q, qt⟩ := s
    cases ar <;> cases ds <;> cases q <;> rfl

/-- The Read handler on a successful Get whose action is the log-to-metric
variant and whose criteria flatten without faulting, starting from an empty
state: the complete resulting state. -/
theorem read_ok_logToMetric_eq (storedId name resourceGroup : String)
    (resp : LogSearchRuleResource) (a : LogToMetricAction)
    (crit : List FlatCriterion)
    (hA : resp.Action = .logToMetric a)
    (hC : flattenAzureRmScheduledQueryRulesLogCriteria a.Criteria = some crit) :
    resourceArmMonitorScheduledQueryRulesLogRead storedId name resourceGroup {}
        (.ok resp)
      = .success storedId {
          name := some name
          resource_group_name := some resourceGroup
          location := resp.Location.map normalizeLocation
          last_updated_time := resp.LastUpdatedTime.map DateTime.rfc3339
          provisioning_state := some resp.ProvisioningState
          enabled := some (resp.Enabled == insightsTrue)
          description := some (resp.Description.getD "")
          criteria := some crit
          frequency := resp.Schedule.bind Schedule.FrequencyInMinutes
          time_window := resp.Schedule.bind Schedule.TimeWindowInMinutes
          authorized_resources := resp.Source.bind Source.AuthorizedResources
          data_source_id := resp.Source.bind Source.DataSourceID
          query := resp.Source.bind Source.Query
          query_type := resp.Source.map Source.QueryType
          tagsState := some resp.Tags } := by
  simp only [resourceArmMonitorScheduledQueryRulesLogRead, hA, hC,
    setBaseFields_eq, setScheduleFields_eq, setSourceFields_eq]
  simp

/-- Flattening the expansion of a dimension collection yields exactly the
canonical flat image of each configured dimension, in order. -/
theorem flattenDimension_expand (ds : List DimensionCfg) :
    flattenAzureRmScheduledQueryRulesLogDimension
        (some (ds.map fun dVal =>
          { Name := some dVal.name
            Operator := some dVal.operator
            Values := some dVal.values }))
      = ds.map cfgToFlatDimension := by
  induction ds with
  | nil => rfl
  | cons d rest ih =>
    simpa [flattenAzureRmScheduledQueryRulesLogDimension, cfgToFlatDimension]
      using ih

/-- Flattening the expansion of a criteria collection never faults and
yields exactly the canonical flat image of each configured criterion, in
order. -/
theorem flattenCriteria_expand (c : List CriterionCfg) :
    flattenAzureRmScheduledQueryRulesLogCriteria
        (some (expandMonitorScheduledQueryRulesLogCriteria c))
      = some (c.map cfgToFlatCriterion) := by
  induction c with
  | nil => rfl
  | cons v rest ih =>
    simp only [expandMonitorScheduledQueryRulesLogCriteria, List.map_cons,
      flattenAzureRmScheduledQueryRulesLogCriteria, flattenLogCriteriaList] at ih ⊢
    rw [ih]
    simp [cfgToFlatCriterion, flattenDimension_expand]

/-- Decoding the canonical flat image of a dimension collection recovers it
exactly. -/
theorem decode_cfgToFlatDimension (ds : List DimensionCfg) :
    (ds.map cfgToFlatDimension).mapM flatDimensionToCfg = some ds := by
  induction ds with
  | nil => rfl
  | cons d rest ih =>
    simp only [List.map_cons, List.mapM_cons, ih, cfgToFlatDimension,
      flatDimensionToCfg]
    rfl

/-- Decoding the canonical flat image of a criteria collection recovers it
exactly. -/
theorem decode_cfgToFlatCriterion (c : List CriterionCfg) :
    (c.map cfgToFlatCriterion).map flatCriterionToCfg = c.map some := by
  induction c with
  | nil => rfl
  | cons v rest ih =>
    simp only [List.map_cons, ih, flatCriterionToCfg, cfgToFlatCriterion,
      decode_cfgToFlatDimension]

/-- Claim C1: for every RuleConfig criteria collection passing schema
validation, flattening the expanded payload succeeds and returns, entry for
entry, exactly the configured criteria (each entry decoding back to its
source `{metric_name, dimension{name, operator, values}}` block); equal
lists are in particular set-equal, so the round-trip law holds up to the
unordered-set storage. -/
theorem criteria_flatten_expand_roundtrip (c : List CriterionCfg)
    (h : criteriaSchemaValid c = true) :
    flattenAzureRmScheduledQueryRulesLogCriteria
        (some (expandMonitorScheduledQueryRulesLogCriteria c))
      = some (c.map cfgToFlatCriterion)
    ∧ (c.map cfgToFlatCriterion).map flatCriterionToCfg = c.map some :=
  ⟨flattenCriteria_expand c, decode_cfgToFlatCriterion c⟩

/-- Witness for C1: a concrete valid one-criterion configuration satisfies
the hypothesis and the round-trip law. -/
theorem criteria_flatten_expand_roundtrip_witness :
    criteriaSchemaValid
        [{ metric_name := "m1",
           dimension := [{ name := "d1", operator := "Include",
                           values := ["v1", "v2"] }] }] = true
    ∧ (flattenAzureRmScheduledQueryRulesLogCriteria
          (some (expandMonitorScheduledQueryRulesLogCriteria
            [{ metric_name := "m1",
               dimension := [{ name := "d1", operator := "Include",
                               values := ["v1", "v2"] }] }]))
        = some ([{ metric_name := "m1",
                   dimension := [{ name := "d1", operator := "Include",
                                   values := ["v1", "v2"] }] }].map cfgToFlatCriterion)
      ∧ ([{ metric_name := "m1",
            dimension := [{ name := "d1", operator := "Include",
                            values := ["v1", "v2"] }] }].map
              cfgToFlatCriterion).map flatCriterionToCfg
        = [{ metric_name := "m1",
             dimension := [{ name := "d1", operator := "Include",
                             values := ["v1", "v2"] }] }].map some) :=
  ⟨by decide, criteria_flatten_expand_roundtrip _ (by decide)⟩

/-- Claim C3, counterexample: a remote criteria entry with a nil metric
name makes the flattener dereference a nil pointer (Go panic, modelled as
`none`), so the flattener is not total on all remote payloads. -/
theorem flatten_criteria_nil_metric_name_cex :
    flattenAzureRmScheduledQueryRulesLogCriteria
        (some [{ MetricName := none, Dimensions := none }]) = none := rfl

/-- Claim C3, amended: the flattener terminates and produces a result on
every input whose criteria entries all carry a metric name; absent
dimension lists and absent dimension fields are handled without faulting
(the dimension flattener is total by construction). -/
theorem flatten_criteria_total_on_present_metric_names
    (input : Option (List Criteria))
    (h : ∀ cr ∈ input.getD [], cr.MetricName.isSome) :
    (flattenAzureRmScheduledQueryRulesLogCriteria input).isSome := by
  cases input with
  | none => rfl
  | some l =>
    simp only [Option.getD_some] at h
    induction l with
    | nil => rfl
    | cons cr rest ih =>
      obtain ⟨m, hm⟩ := Option.isSome_iff_exists.mp (h cr (by simp))
      have hrest := ih fun x hx => h x (by simp [hx])
      simp only [flattenAzureRmScheduledQueryRulesLogCriteria] at hrest ⊢
      obtain ⟨tail, htail⟩ := Option.isSome_iff_exists.mp hrest
      simp [flattenLogCriteriaList, hm, htail]

/-- Witness for C3's amended theorem: a concrete payload whose entries all
have metric names (one with a nil dimension list, one with nil dimension
fields) flattens successfully. -/
theorem flatten_criteria_total_witness :
    (∀ cr ∈ (some [({ MetricName := some "m1", Dimensions := none } : Criteria),
                   { MetricName := some "m2",
                     Dimensions := some [{ Name := none, Operator := none,
                                           Values := none }] }] :
                Option (List Criteria)).getD [],
        cr.MetricName.isSome)
    ∧ (flattenAzureRmScheduledQueryRulesLogCriteria
        (some [{ MetricName := some "m1", Dimensions := none },
               { MetricName := some "m2",
                 Dimensions := some [{ Name := none, Operator := none,
                                       Values := none }] }])).isSome :=
  ⟨by decide, flatten_criteria_total_on_present_metric_names _ (by decide)⟩

/-- Claim C2, counterexample: a remote payload with absent description,
enabled flag, provisioning state and source is read into a state whose
`description`, `enabled` and `provisioning_state` keys are nonetheless set,
to the zero/default values `""`, `false` and `""` — not omitted as the
claim requires. -/
theorem read_absent_optional_fields_defaulted_cex :
    resourceArmMonitorScheduledQueryRulesLogRead "id0" "r1" "rg1" {}
        (.ok { Action := .logToMetric {} })
      = .success "id0" {
          name := some "r1"
          resource_group_name := some "rg1"
          provisioning_state := some ""
          enabled := some false
          description := some ""
          criteria := some []
          tagsState := some [] } := by
  decide

/-- Claim C2, amended: on a successful Read of a log-to-metric rule from an
empty state, `location`, `last_updated_time`, `frequency`, `time_window`,
`authorized_resources`, `data_source_id` and `query` are set exactly when
present in the remote payload; but `description`, `provisioning_state` and
`enabled` are set unconditionally (zero/default-substituted when absent),
and `query_type` is set whenever the source block is present, even when
empty. -/
theorem read_optional_field_presence (storedId name resourceGroup : String)
    (resp : LogSearchRuleResource) (a : LogToMetricAction)
    (crit : List FlatCriterion)
    (hA : resp.Action = .logToMetric a)
    (hC : flattenAzureRmScheduledQueryRulesLogCriteria a.Criteria = some crit) :
    ∃ st, resourceArmMonitorScheduledQueryRulesLogRead storedId name
            resourceGroup {} (.ok resp)
          = .success storedId st
      ∧ st.location = resp.Location.map normalizeLocation
      ∧ st.last_updated_time = resp.LastUpdatedTime.map DateTime.rfc3339
      ∧ st.frequency = resp.Schedule.bind Schedule.FrequencyInMinutes
      ∧ st.time_window = resp.Schedule.bind Schedule.TimeWindowInMinutes
      ∧ st.authorized_resources = resp.Source.bind Source.AuthorizedResources
      ∧ st.data_source_id = resp.Source.bind Source.DataSourceID
      ∧ st.query = resp.Source.bind Source.Query
      ∧ st.description = some (resp.Description.getD "")
      ∧ st.provisioning_state = some resp.ProvisioningState
      ∧ st.enabled = some (resp.Enabled == insightsTrue)
      ∧ st.query_type = resp.Source.map Source.QueryType :=
  ⟨_, read_ok_logToMetric_eq storedId name resourceGroup resp a crit hA hC,
    rfl, rfl, rfl, rfl, rfl, rfl, rfl, rfl, rfl, rfl, rfl⟩

/-- Witness for C2's amended theorem at a concrete payload with a present
location and an absent description. -/
theorem read_optional_field_presence_witness :
    ({ Action := .logToMetric {}, Location := some "West US" :
        LogSearchRuleResource }).Action = .logToMetric {}
    ∧ flattenAzureRmScheduledQueryRulesLogCriteria
        (({} : LogToMetricAction)).Criteria = some []
    ∧ ∃ st, resourceArmMonitorScheduledQueryRulesLogRead "id0" "r1" "rg1" {}
            (.ok { Action := .logToMetric {}, Location := some "West US" })
          = .success "id0" st
        ∧ st.location = some "westus"
        ∧ st.description = some "" :=
  ⟨rfl, rfl, by
    obtain ⟨st, hst, hloc, -, -, -, -, -, -, hdesc, -⟩ :=
      read_optional_field_presence "id0" "r1" "rg1"
        { Action := .logToMetric {}, Location := some "West US" } {} []
        rfl rfl
    exact ⟨st, hst, hloc.trans (by decide), hdesc⟩⟩

/-- Claim C4: a NotFound from `client.Get` makes the Read handler clear the
stored id and succeed with the state untouched; any other Get failure is
returned as an error carrying the rule name, the resource group, and the
original error. -/
theorem read_notFound_clears_state_other_errors_wrapped
    (storedId name resourceGroup e : String) (st0 : TFState) :
    resourceArmMonitorScheduledQueryRulesLogRead storedId name resourceGroup
        st0 (.notFound e) = .success "" st0
    ∧ resourceArmMonitorScheduledQueryRulesLogRead storedId name resourceGroup
        st0 (.failed e) = .failure (.gettingRule name resourceGroup e) :=
  ⟨rfl, rfl⟩

/-- Witness for C4 at concrete inputs. -/
theorem read_notFound_clears_state_witness :
    resourceArmMonitorScheduledQueryRulesLogRead "id0" "r1" "rg1" {}
        (.notFound "404") = .success "" {} :=
  (read_notFound_clears_state_other_errors_wrapped "id0" "r1" "rg1" "404" {}).1

/-- Claim C5: a NotFound from `client.Delete` is swallowed and the Delete
handler succeeds (idempotent delete); any other failure is wrapped with the
rule name and resource group around the original provider error. -/
theorem delete_notFound_idempotent_other_errors_wrapped
    (name resourceGroup e : String) :
    resourceArmMonitorScheduledQueryRulesLogDelete name resourceGroup
        (.errNotFound e) = .success
    ∧ resourceArmMonitorScheduledQueryRulesLogDelete name resourceGroup
        (.errOther e) = .failure (.deletingRule name resourceGroup e)
    ∧ resourceArmMonitorScheduledQueryRulesLogDelete name resourceGroup .ok
        = .success :=
  ⟨rfl, rfl, rfl⟩

/-- Witness for C5 at concrete inputs. -/
theorem delete_notFound_idempotent_witness :
    resourceArmMonitorScheduledQueryRulesLogDelete "r1" "rg1"
        (.errNotFound "404") = .success :=
  (delete_notFound_idempotent_other_errors_wrapped "r1" "rg1" "404").1

/-- The import-protection pre-check finds no existing object: protection is
off, the rule is not new, the Get was a 404, or the returned object has no
(or an empty) id. -/
def precheckPasses (env : CreateEnv) : Prop :=
  (env.importProtect && env.isNew) = false
  ∨ (∃ e, env.getExisting = .notFound e)
  ∨ (∃ existing, env.getExisting = .ok existing
      ∧ (existing.ID = none ∨ existing.ID = some ""))

/-- Once the pre-check is passed, the CreateOrUpdate call is always
issued. -/
theorem createOrUpdate_mem_afterCheck (name resourceGroup : String)
    (st0 : TFState) (env : CreateEnv) (callsBefore : List ApiCall) :
    ApiCall.createOrUpdate ∈
      (createUpdateAfterCheck name resourceGroup st0 env callsBefore).2 := by
  unfold createUpdateAfterCheck
  cases hc : env.createResult with
  | some e => simp
  | none =>
    cases hg : env.getAfterCreate with
    | failed e => simp
    | notFound e => simp
    | ok read =>
      cases hid : read.ID with
      | none => simp [hid]
      | some rid => simp [hid]

/-- A failing CreateOrUpdate call stops the handler with a wrapped error,
before the follow-up Get and the Read. -/
theorem afterCheck_createFail (name resourceGroup : String) (st0 : TFState)
    (env : CreateEnv) (callsBefore : List ApiCall) (e : String)
    (hc : env.createResult = some e) :
    createUpdateAfterCheck name resourceGroup st0 env callsBefore
      = (.failure (.creatingRule name resourceGroup e),
         callsBefore ++ [ApiCall.createOrUpdate]) := by
  simp [createUpdateAfterCheck, hc]

/-- A successful CreateOrUpdate followed by a Get returning an id leads to
the delegated Read. -/
theorem afterCheck_success (name resourceGroup : String) (st0 : TFState)
    (env : CreateEnv) (callsBefore : List ApiCall)
    (r : LogSearchRuleResource) (rid : String)
    (hc : env.createResult = none) (hg : env.getAfterCreate = .ok r)
    (hid : r.ID = some rid) :
    createUpdateAfterCheck name resourceGroup st0 env callsBefore
      = (.readResult (resourceArmMonitorScheduledQueryRulesLogRead rid name
           resourceGroup st0 env.readGet),
         callsBefore ++ [ApiCall.createOrUpdate, ApiCall.getAfterCreate,
           ApiCall.readGet]) := by
  simp [createUpdateAfterCheck, hc, hg, hid]

/-- When the pre-check passes, the Create/Update handler continues into the
create phase, with at most the existence-check Get already issued. -/
theorem create_precheck_pass (name resourceGroup : String) (st0 : TFState)
    (env : CreateEnv) (hp : precheckPasses env) :
    resourceArmMonitorScheduledQueryRulesLogCreateUpdate name resourceGroup
        st0 env
      = createUpdateAfterCheck name resourceGroup st0 env []
    ∨ resourceArmMonitorScheduledQueryRulesLogCreateUpdate name resourceGroup
        st0 env
      = createUpdateAfterCheck name resourceGroup st0 env
          [ApiCall.getExisting] := by
  rcases hp with h1 | ⟨e, h2⟩ | ⟨existing, h3, h4⟩
  · left
    simp [resourceArmMonitorScheduledQueryRulesLogCreateUpdate, h1]
  · cases hflag : env.importProtect && env.isNew with
    | false =>
      left; simp [resourceArmMonitorScheduledQueryRulesLogCreateUpdate, hflag]
    | true =>
      right
      simp [resourceArmMonitorScheduledQueryRulesLogCreateUpdate, hflag, h2]
  · cases hflag : env.importProtect && env.isNew with
    | false =>
      left; simp [resourceArmMonitorScheduledQueryRulesLogCreateUpdate, hflag]
    | true =>
      right
      rcases h4 with h4 | h4 <;>
        simp [resourceArmMonitorScheduledQueryRulesLogCreateUpdate, hflag,
          h3, h4]

/-- Every path of the Create/Update handler either stops at the pre-check
with only the existence Get issued, or reaches the create phase. -/
theorem create_shape (name resourceGroup : String) (st0 : TFState)
    (env : CreateEnv) :
    (∃ err, resourceArmMonitorScheduledQueryRulesLogCreateUpdate name
        resourceGroup st0 env = (.failure err, [ApiCall.getExisting]))
    ∨ resourceArmMonitorScheduledQueryRulesLogCreateUpdate name resourceGroup
        st0 env = createUpdateAfterCheck name resourceGroup st0 env []
    ∨ resourceArmMonitorScheduledQueryRulesLogCreateUpdate name resourceGroup
        st0 env
      = createUpdateAfterCheck name resourceGroup st0 env
          [ApiCall.getExisting] := by
  cases hflag : env.importProtect && env.isNew with
  | false =>
    right; left
    simp [resourceArmMonitorScheduledQueryRulesLogCreateUpdate, hflag]
  | true =>
    cases hge : env.getExisting with
    | failed e =>
      left
      exact ⟨.checkingExisting name resourceGroup e, by
        simp [resourceArmMonitorScheduledQueryRulesLogCreateUpdate, hflag, hge]⟩
    | notFound e =>
      right; right
      simp [resourceArmMonitorScheduledQueryRulesLogCreateUpdate, hflag, hge]
    | ok existing =>
      cases hid : existing.ID with
      | none =>
        right; right
        simp [resourceArmMonitorScheduledQueryRulesLogCreateUpdate, hflag,
          hge, hid]
      | some i =>
        by_cases hne : i = ""
        · right; right
          simp [resourceArmMonitorScheduledQueryRulesLogCreateUpdate, hflag,
            hge, hid, hne]
        · left
          exact ⟨.importAsExists "azurerm_monitor_scheduled_query_rules_log" i, by
            simp [resourceArmMonitorScheduledQueryRulesLogCreateUpdate, hflag,
              hge, hid, hne]⟩

/-- The delegated Read is reached only when the CreateOrUpdate call
succeeded and the follow-up Get returned an object carrying an id: a
failing create, a failing or NotFound follow-up Get, or a nil id all stop
the handler before any Read. -/
theorem readGet_mem_afterCheck_inv (name resourceGroup : String)
    (st0 : TFState) (env : CreateEnv) (callsBefore : List ApiCall)
    (hnb : ApiCall.readGet ∉ callsBefore)
    (h : ApiCall.readGet ∈
      (createUpdateAfterCheck name resourceGroup st0 env callsBefore).2) :
    env.createResult = none
    ∧ ∃ r rid, env.getAfterCreate = .ok r ∧ r.ID = some rid := by
  unfold createUpdateAfterCheck at h
  cases hc : env.createResult with
  | some e =>
    simp only [hc] at h
    simp [hnb] at h
  | none =>
    cases hg : env.getAfterCreate with
    | failed e =>
      simp only [hc, hg] at h
      simp [hnb] at h
    | notFound e =>
      simp only [hc, hg] at h
      simp [hnb] at h
    | ok r =>
      cases hid : r.ID with
      | none =>
        simp only [hc, hg, hid] at h
        simp [hnb] at h
      | some rid => exact ⟨rfl, r, rid, rfl, hid⟩

/-- Claim C6, counterexample: with import protection enabled and a new
resource, when the pre-existence Get fails with an error that is not a 404,
no remote object with a non-empty ID was reported — so the claim's
"otherwise" branch demands a create/update call — yet the handler stops at
the existence-check error and never issues CreateOrUpdate. -/
theorem create_precheck_failure_no_create_cex :
    resourceArmMonitorScheduledQueryRulesLogCreateUpdate "r1" "rg1" {}
        { importProtect := true, isNew := true, getExisting := .failed "boom",
          createResult := none, getAfterCreate := .ok { ID := some "x" },
          readGet := .notFound "404" }
      = (.failure (.checkingExisting "r1" "rg1" "boom"), [ApiCall.getExisting])
    ∧ ApiCall.createOrUpdate ∉ [ApiCall.getExisting] := by
  exact ⟨rfl, by decide⟩

/-- Claim C6, amended: (1) with import protection enabled on a new resource,
an existing remote object with a non-empty id makes the handler fail with
the import-as-exists error before any CreateOrUpdate call; (2) a
non-NotFound failure of the pre-existence Get likewise stops the handler
with the existence-check error before any CreateOrUpdate call; (3) whenever
the pre-check passes the CreateOrUpdate call is issued; (4) when moreover
the create call and the follow-up Get succeed with a non-empty id, the
handler performs the delegated Read and returns its outcome; (5) a failing
create call stops the handler before any Read; (6) conversely, a Read
occurs only when the create call succeeded and the follow-up Get returned
an object with an id — a failing or NotFound follow-up Get, or a nil id,
performs no Read — so together with (4) the Read happens exactly when the
create call and the follow-up Get succeed with an id. -/
theorem create_import_protection_characterization
    (name resourceGroup : String) (st0 : TFState) (env : CreateEnv) :
    (∀ existing i, env.importProtect = true → env.isNew = true →
        env.getExisting = .ok existing → existing.ID = some i → i ≠ "" →
        resourceArmMonitorScheduledQueryRulesLogCreateUpdate name
            resourceGroup st0 env
          = (.failure (.importAsExists
               "azurerm_monitor_scheduled_query_rules_log" i),
             [ApiCall.getExisting]))
    ∧ (∀ e, env.importProtect = true → env.isNew = true →
        env.getExisting = .failed e →
        resourceArmMonitorScheduledQueryRulesLogCreateUpdate name
            resourceGroup st0 env
          = (.failure (.checkingExisting name resourceGroup e),
             [ApiCall.getExisting]))
    ∧ (precheckPasses env →
        ApiCall.createOrUpdate ∈
          (resourceArmMonitorScheduledQueryRulesLogCreateUpdate name
            resourceGroup st0 env).2)
    ∧ (∀ r rid, precheckPasses env → env.createResult = none →
        env.getAfterCreate = .ok r → r.ID = some rid →
        (resourceArmMonitorScheduledQueryRulesLogCreateUpdate name
            resourceGroup st0 env).1
          = .readResult (resourceArmMonitorScheduledQueryRulesLogRead rid
              name resourceGroup st0 env.readGet)
        ∧ ApiCall.readGet ∈
            (resourceArmMonitorScheduledQueryRulesLogCreateUpdate name
              resourceGroup st0 env).2)
    ∧ (∀ e, env.createResult = some e →
        ApiCall.readGet ∉
          (resourceArmMonitorScheduledQueryRulesLogCreateUpdate name
            resourceGroup st0 env).2)
    ∧ (ApiCall.readGet ∈
          (resourceArmMonitorScheduledQueryRulesLogCreateUpdate name
            resourceGroup st0 env).2 →
        env.createResult = none
        ∧ ∃ r rid, env.getAfterCreate = .ok r ∧ r.ID = some rid) := by
  refine ⟨?_, ?_, ?_, ?_, ?_, ?_⟩
  · intro existing i hp hn hge hid hne
    simp [resourceArmMonitorScheduledQueryRulesLogCreateUpdate, hp, hn, hge,
      hid, hne]
  · intro e hp hn hge
    simp [resourceArmMonitorScheduledQueryRulesLogCreateUpdate, hp, hn, hge]
  · intro hpass
    rcases create_precheck_pass name resourceGroup st0 env hpass with h | h <;>
      rw [h] <;> exact createOrUpdate_mem_afterCheck ..
  · intro r rid hpass hc hg hid
    rcases create_precheck_pass name resourceGroup st0 env hpass with h | h <;>
      rw [h, afterCheck_success name resourceGroup st0 env _ r rid hc hg hid] <;>
      exact ⟨rfl, by simp⟩
  · intro e hc
    rcases create_shape name resourceGroup st0 env with ⟨err, h⟩ | h | h <;>
      rw [h]
    · simp
    · rw [afterCheck_createFail name resourceGroup st0 env _ e hc]; simp
    · rw [afterCheck_createFail name resourceGroup st0 env _ e hc]; simp
  · intro hmem
    rcases create_shape name resourceGroup st0 env with ⟨err, h⟩ | h | h <;>
      rw [h] at hmem
    · simp at hmem
    · exact readGet_mem_afterCheck_inv name resourceGroup st0 env [] (by decide)
        hmem
    · exact readGet_mem_afterCheck_inv name resourceGroup st0 env
        [ApiCall.getExisting] (by decide) hmem

/-- Witness for C6's amended theorem: part (1) applied at an environment
whose pre-existence Get returns an object with id `"x"`, and part (4)
applied at an environment whose pre-existence Get is a 404 and whose create
succeeds. -/
theorem create_import_protection_witness :
    (resourceArmMonitorScheduledQueryRulesLogCreateUpdate "r1" "rg1" {}
        { importProtect := true, isNew := true,
          getExisting := .ok { ID := some "x" }, createResult := none,
          getAfterCreate := .ok { ID := some "x" }, readGet := .notFound "404" }
      = (.failure (.importAsExists "azurerm_monitor_scheduled_query_rules_log"
           "x"),
         [ApiCall.getExisting]))
    ∧ ((resourceArmMonitorScheduledQueryRulesLogCreateUpdate "r1" "rg1" {}
          { importProtect := true, isNew := true, getExisting := .notFound "404",
            createResult := none, getAfterCreate := .ok { ID := some "newid" },
            readGet := .notFound "404" }).1
        = .readResult (resourceArmMonitorScheduledQueryRulesLogRead "newid"
            "r1" "rg1" {} (.notFound "404"))
      ∧ ApiCall.readGet ∈
          (resourceArmMonitorScheduledQueryRulesLogCreateUpdate "r1" "rg1" {}
            { importProtect := true, isNew := true, getExisting := .notFound "404",
              createResult := none, getAfterCreate := .ok { ID := some "newid" },
              readGet := .notFound "404" }).2) :=
  ⟨(create_import_protection_characterization "r1" "rg1" {} _).1
      { ID := some "x" } "x" rfl rfl rfl rfl (by decide),
   (create_import_protection_characterization "r1" "rg1" {} _).2.2.2.1
      { ID := some "newid" } "newid" (Or.inr (Or.inl ⟨"404", rfl⟩)) rfl rfl rfl⟩

/-- Claim C7: the scenario configuration with one criterion
`Average_%_Idle_Time` and one dimension `InstanceName` expands to a
payload tagged with the fixed LogToMetric discriminator holding exactly
one Criterion with that MetricName and exactly one Dimension with that
Name. -/
theorem expand_logToMetric_scenario :
    expandMonitorScheduledQueryRulesLogToMetricAction
        [{ metric_name := "Average_%_Idle_Time",
           dimension := [{ name := "InstanceName", operator := "Include",
                           values := [""] }] }]
      = { OdataType := .logToMetricAction,
          Criteria := some [{ MetricName := some "Average_%_Idle_Time",
                              Dimensions := some [{ Name := some "InstanceName",
                                                    Operator := some "Include",
                                                    Values := some [""] }] }] } :=
  rfl

/-- Claim C8: the `severity` schema validator accepts an integer exactly
when it is one of 0, 1, 2, 3, 4 — every other integer is rejected by schema
validation (which the host framework runs before the Expander). -/
theorem severity_validation_accepts_exactly_0_to_4 (v : Int) :
    severityValidate v = true ↔ v = 0 ∨ v = 1 ∨ v = 2 ∨ v = 3 ∨ v = 4 := by
  constructor
  · intro h
    simpa [severityValidate, intInSlice, List.contains] using h
  · intro h
    rcases h with h | h | h | h | h <;> subst h <;> decide

/-- Witness for C8 at concrete accepted and rejected severities. -/
theorem severity_validation_witness :
    severityValidate 3 = true ∧ severityValidate 5 ≠ true :=
  ⟨(severity_validation_accepts_exactly_0_to_4 3).mpr
      (Or.inr (Or.inr (Or.inr (Or.inl rfl)))),
   fun h => by
     rcases (severity_validation_accepts_exactly_0_to_4 5).mp h with
       h | h | h | h | h <;> exact absurd h (by decide)⟩

/-- Claim C9: absent remote collections are harmless: a nil criteria list
flattens to the empty collection, a nil dimension list flattens to the
empty collection, and a source block with nil `authorized_resources` leaves
the `authorized_resources` state key unset on a successful Read from an
empty state. -/
theorem flatten_absent_collections_safe (storedId name resourceGroup : String)
    (resp : LogSearchRuleResource) (a : LogToMetricAction)
    (crit : List FlatCriterion) (src : Source)
    (hA : resp.Action = .logToMetric a)
    (hC : flattenAzureRmScheduledQueryRulesLogCriteria a.Criteria = some crit)
    (hS : resp.Source = some src)
    (hAR : src.AuthorizedResources = none) :
    flattenAzureRmScheduledQueryRulesLogCriteria none = some []
    ∧ flattenAzureRmScheduledQueryRulesLogDimension none = []
    ∧ ∃ st, resourceArmMonitorScheduledQueryRulesLogRead storedId name
            resourceGroup {} (.ok resp)
          = .success storedId st
        ∧ st.authorized_resources = none :=
  ⟨rfl, rfl,
   ⟨_, read_ok_logToMetric_eq storedId name resourceGroup resp a crit hA hC,
    by rw [hS]; simpa using hAR⟩⟩

/-- Witness for C9 at a concrete payload whose source has a nil
authorized-resources list. -/
theorem flatten_absent_collections_witness :
    flattenAzureRmScheduledQueryRulesLogCriteria none = some []
    ∧ flattenAzureRmScheduledQueryRulesLogDimension none = []
    ∧ ∃ st, resourceArmMonitorScheduledQueryRulesLogRead "id0" "r1" "rg1" {}
            (.ok { Action := .logToMetric {},
                   Source := some { DataSourceID := some "ds" } })
          = .success "id0" st
        ∧ st.authorized_resources = none :=
  flatten_absent_collections_safe "id0" "r1" "rg1"
    { Action := .logToMetric {}, Source := some { DataSourceID := some "ds" } }
    {} [] { DataSourceID := some "ds" } rfl rfl rfl rfl

/-- Claim C10: a remote rule whose action is not the log-to-metric variant
(the alerting variant or the base variant) makes the Read handler return
the unknown-action-type error carrying the rule name, the resource group
and the printed action type; criteria are flattened only in the
log-to-metric case. -/
theorem read_unknown_action_type_error (storedId name resourceGroup : String)
    (st0 : TFState) (resp : LogSearchRuleResource)
    (h : resp.Action = .alerting ∨ resp.Action = .base) :
    resourceArmMonitorScheduledQueryRulesLogRead storedId name resourceGroup
        st0 (.ok resp)
      = .failure (.unknownActionType name resourceGroup
          (actionTypeName resp.Action)) := by
  rcases h with h | h <;>
    simp [resourceArmMonitorScheduledQueryRulesLogRead, h, actionTypeName]

/-- Witness for C10 at a concrete payload carrying an alerting action. -/
theorem read_unknown_action_type_witness :
    resourceArmMonitorScheduledQueryRulesLogRead "id0" "r1" "rg1" {}
        (.ok { Action := .alerting })
      = .failure (.unknownActionType "r1" "rg1"
          (actionTypeName ({ Action := .alerting :
            LogSearchRuleResource }).Action)) :=
  read_unknown_action_type_error "id0" "r1" "rg1" {} { Action := .alerting }
    (Or.inl rfl)
